import Mathlib

/-!
Verification development for the bookaware repository (library-portal scraper
with a durable scheduling/command loop, `src/bookaware/main.py`).

The Python source is shallowly embedded: pure computations become Lean
functions, the mutable fields of `VoebbScraper` / `VoebbScraperHomeAssistant`
become explicit state records threaded through the operations, HTTP traffic is
a `Request → Response` world function, and Python exceptions become
`Except`-valued results.  Timestamps are modelled as integers (seconds);
`urljoin` of `urllib.parse` is an opaque parameter, and the CSS selection done
by BeautifulSoup is an opaque capability of a document.
-/

namespace Bookaware

/-! ## HTML documents and HTTP traffic

An `Input` models an `<input>` element as seen through `input_field.get`:
each attribute is present or absent.  A `Doc` models a parsed page: the list
of its `<form>` elements in document order (`soup.find("form")` is the head),
its answer to `select_one` for a CSS selector, and the rows matched by
`#resptable-1 tbody tr` together with their `<td>` cells. -/

structure Input where
  name : Option String
  type : Option String
  value : Option String
deriving DecidableEq, Repr

structure Form where
  action : Option String
  inputs : List Input
deriving DecidableEq, Repr

structure Elem where
  href : Option String
deriving DecidableEq, Repr

/-- A table cell: `get_text(strip=True)` and the `stripped_strings` view. -/
structure Cell where
  text : String
  strippedStrings : List String
deriving DecidableEq, Repr

structure Doc where
  forms : List Form
  selectOne : String → Option Elem
  rows : List (List Cell)

/-- The mutable session fields of `VoebbScraper`: `self.current_url` and
`self.last_response`. -/
structure NavState where
  current_url : String
  last_response : Option Doc

/-- An HTTP request as issued through `requests.Session`.  Form payloads are
Python dicts whose keys may be `None` (inputs without a `name` attribute), so
a payload is an insertion-ordered association list over `Option String`. -/
inductive Request where
  | get (url : String)
  | post (url : String) (payload : List (Option String × String))
deriving DecidableEq, Repr

/-- An HTTP response: final status code, resolved (possibly redirected) URL,
and parsed body. -/
structure Response where
  status_code : Nat
  url : String
  content : Doc

/-- The exceptions raised by the navigation operations, one constructor per
distinct `raise` site (the missing-action case is the `AttributeError` raised
by calling `.startswith` on `None`). -/
inductive NavError where
  | loadFailed (status : Nat)
  | noDocument
  | formNotFound
  | actionAttributeError
  | formSubmitFailed (status : Nat)
  | linkNotFound (selector : String)
  | linkMissingHref
  | linkFollowFailed (status : Nat)
deriving DecidableEq, Repr

/-- Outcome of one navigation operation: the returned value or raised error,
the session state after the call, and the HTTP request actually issued (if
the operation failed before reaching `session.get` / `session.post`, none). -/
structure StepOut where
  result : Except NavError Doc
  state : NavState
  request : Option Request

/-! ## Python dict operations

Payload dicts are built by repeated assignment starting from `{}`:
assignment to an existing key replaces its value in place, a new key is
appended.  `valuesLookup` models `name in values` / `values[name]` for the
string-keyed override dict. -/

def dictInsert : List (Option String × String) → Option String → String →
    List (Option String × String)
  | [], k, v => [(k, v)]
  | p :: rest, k, v => if p.1 = k then (k, v) :: rest else p :: dictInsert rest k v

def dictFind : List (Option String × String) → Option String → Option String
  | [], _ => none
  | p :: rest, k => if p.1 = k then some p.2 else dictFind rest k

def valuesLookup : List (String × String) → String → Option String
  | [], _ => none
  | p :: rest, n => if p.1 = n then some p.2 else valuesLookup rest n

/-- One iteration of the payload loop of `find_and_submit_form`: a
submit-typed input whose name differs from `button` is skipped; otherwise the
default value (`get("value", "")`) is overridden when the name is a key of
`values` (a `None` name is never a key), and assigned under the input's name. -/
def payloadStep (values : List (String × String)) (button : Option String)
    (payload : List (Option String × String)) (inp : Input) :
    List (Option String × String) :=
  if inp.type = some "submit" ∧ inp.name ≠ button then
    payload
  else
    match inp.name with
    | some n =>
        match valuesLookup values n with
        | some overridden => dictInsert payload (some n) overridden
        | none => dictInsert payload (some n) (inp.value.getD "")
    | none => dictInsert payload none (inp.value.getD "")

/-- The payload built from every input of the form, in document order. -/
def buildPayload (inputs : List Input) (values : List (String × String))
    (button : Option String) : List (Option String × String) :=
  inputs.foldl (payloadStep values button) []

/-! ## Navigation operations (`VoebbScraper`) -/

/-- `action_url.startswith("http")`, as a codepoint-prefix test. -/
def startsWithHttp (s : String) : Bool :=
  "http".toList.isPrefixOf s.toList

/-- `load_page`: GET the current URL; on status 200 store the resolved URL and
body, otherwise raise with the status, leaving the session untouched. -/
def load_page (world : Request → Response) (s : NavState) : StepOut :=
  let req := Request.get s.current_url
  let resp := world req
  if resp.status_code = 200 then
    { result := Except.ok resp.content,
      state := { current_url := resp.url, last_response := some resp.content },
      request := some req }
  else
    { result := Except.error (NavError.loadFailed resp.status_code),
      state := s,
      request := some req }

/-- `find_and_submit_form`: parse the current document, take its first form,
read the action attribute (absent action makes the unguarded
`action_url.startswith("http")` raise `AttributeError` before anything is
posted), resolve it against the current URL when relative, build the payload,
POST it, and on status 200 store the resolved URL and body. -/
def find_and_submit_form (uj : String → String → String)
    (world : Request → Response) (s : NavState)
    (values : List (String × String)) (button : Option String) : StepOut :=
  match s.last_response with
  | none =>
      { result := Except.error NavError.noDocument, state := s, request := none }
  | some doc =>
      match doc.forms.head? with
      | none =>
          { result := Except.error NavError.formNotFound, state := s, request := none }
      | some form =>
          match form.action with
          | none =>
              { result := Except.error NavError.actionAttributeError,
                state := s, request := none }
          | some action =>
              let action_url :=
                if startsWithHttp action then action else uj s.current_url action
              let payload := buildPayload form.inputs values button
              let req := Request.post action_url payload
              let resp := world req
              if resp.status_code = 200 then
                { result := Except.ok resp.content,
                  state := { current_url := resp.url, last_response := some resp.content },
                  request := some req }
              else
                { result := Except.error (NavError.formSubmitFailed resp.status_code),
                  state := s,
                  request := some req }

/-- `find_and_follow_link`: select the first element matching the CSS
selector, require a non-empty `href` (Python tests `if not href`, so both a
missing and an empty attribute raise), resolve it against the current URL,
GET it, and on status 200 store the resolved URL and body. -/
def find_and_follow_link (uj : String → String → String)
    (world : Request → Response) (s : NavState) (selector : String) : StepOut :=
  match s.last_response with
  | none =>
      { result := Except.error NavError.noDocument, state := s, request := none }
  | some doc =>
      match doc.selectOne selector with
      | none =>
          { result := Except.error (NavError.linkNotFound selector),
            state := s, request := none }
      | some link =>
          match link.href with
          | none =>
              { result := Except.error NavError.linkMissingHref,
                state := s, request := none }
          | some href =>
              if href = "" then
                { result := Except.error NavError.linkMissingHref,
                  state := s, request := none }
              else
                let req := Request.get (uj s.current_url href)
                let resp := world req
                if resp.status_code = 200 then
                  { result := Except.ok resp.content,
                    state := { current_url := resp.url, last_response := some resp.content },
                    request := some req }
                else
                  { result := Except.error (NavError.linkFollowFailed resp.status_code),
                    state := s,
                    request := some req }

/-! ## Dates and the table parser -/

structure Date where
  year : Nat
  month : Nat
  day : Nat
deriving DecidableEq, Repr

def isLeap (y : Nat) : Bool :=
  y % 4 = 0 && (y % 100 != 0 || y % 400 = 0)

def daysInMonth (y m : Nat) : Nat :=
  if m = 2 then (if isLeap y then 29 else 28)
  else if m = 4 ∨ m = 6 ∨ m = 9 ∨ m = 11 then 30
  else 31

/-- Proleptic-Gregorian ordinal of a date, as `datetime.date.toordinal`
(January 1 of year 1 is day 1); only differences of ordinals are used. -/
def daysBeforeYear (y : Nat) : Nat :=
  365 * (y - 1) + (y - 1) / 4 - (y - 1) / 100 + (y - 1) / 400

def daysBeforeMonth (y m : Nat) : Nat :=
  (List.range (m - 1)).foldl (fun acc i => acc + daysInMonth y (i + 1)) 0

def toOrdinal (d : Date) : Nat :=
  daysBeforeYear d.year + daysBeforeMonth d.year d.month + d.day

def digitsVal : List Char → Nat → Option Nat
  | [], acc => some acc
  | c :: rest, acc =>
      if c.isDigit then digitsVal rest (acc * 10 + (c.toNat - 48)) else none

/-- Parse a digit run of a length between `lo` and `hi`. -/
def parseNatLen (cs : List Char) (lo hi : Nat) : Option Nat :=
  if lo ≤ cs.length ∧ cs.length ≤ hi then digitsVal cs 0 else none

/-- Split a codepoint sequence at every dot, like `"%d.%m.%Y"` segments the
input at the literal dots. -/
def splitDots : List Char → List (List Char)
  | [] => [[]]
  | c :: rest =>
      if c = Char.ofNat 46 then [] :: splitDots rest
      else
        match splitDots rest with
        | [] => [[c]]
        | seg :: segs => (c :: seg) :: segs

/-- Model of `datetime.strptime(s, "%d.%m.%Y")` followed by `.date()`:
one or two digits of day and month, exactly four digits of year, and a
calendar-valid day for the month (as `datetime` enforces). -/
def strptime_dmY (s : String) : Option Date :=
  match splitDots s.toList with
  | [ds, ms, ys] =>
      match parseNatLen ds 1 2, parseNatLen ms 1 2, parseNatLen ys 4 4 with
      | some d, some m, some y =>
          if 1 ≤ y ∧ 1 ≤ m ∧ m ≤ 12 ∧ 1 ≤ d ∧ d ≤ daysInMonth y m then
            some { year := y, month := m, day := d }
          else
            none
      | _, _, _ => none
  | _ => none

def pad2 (n : Nat) : String :=
  if n < 10 then "0" ++ toString n else toString n

def pad4 (n : Nat) : String :=
  if n < 10 then "000" ++ toString n
  else if n < 100 then "00" ++ toString n
  else if n < 1000 then "0" ++ toString n
  else toString n

/-- `date.isoformat()`. -/
def Date.isoformat (d : Date) : String :=
  pad4 d.year ++ "-" ++ pad2 d.month ++ "-" ++ pad2 d.day

/-- The record built for one table row by `extract_table` (the `BookEntry`
TypedDict of the source, with `due_date` already ISO-formatted). -/
structure BookEntry where
  due_date : String
  library : String
  title : String
  hint : String
  days_left : Int
deriving DecidableEq, Repr

/-- The exceptions `extract_table` can raise on a row: `IndexError` from
`tds[i]` on a short row, or `ValueError` from `strptime` on a malformed
date. -/
inductive ParseError where
  | indexError (rowIndex : Nat)
  | valueError (rowIndex : Nat) (text : String)
deriving DecidableEq, Repr

/-- One row of `extract_table`, in the evaluation order of the source:
`tds[1]` is read and parsed as a date before `tds[2..4]` are accessed. -/
def parseRow (today : Date) (idx : Nat) (tds : List Cell) :
    Except ParseError BookEntry :=
  match tds[1]? with
  | none => Except.error (ParseError.indexError idx)
  | some dateCell =>
      match strptime_dmY dateCell.text with
      | none => Except.error (ParseError.valueError idx dateCell.text)
      | some due =>
          match tds[2]?, tds[3]?, tds[4]? with
          | some c2, some c3, some c4 =>
              Except.ok
                { due_date := Date.isoformat due,
                  library := c2.text,
                  title := String.intercalate " " c3.strippedStrings,
                  hint := c4.text,
                  days_left := (toOrdinal due : Int) - (toOrdinal today : Int) }
          | _, _, _ => Except.error (ParseError.indexError idx)

def extractRows (today : Date) : Nat → List (List Cell) →
    Except ParseError (List BookEntry)
  | _, [] => Except.ok []
  | idx, tr :: rest =>
      match parseRow today idx tr with
      | Except.error e => Except.error e
      | Except.ok entry =>
          match extractRows today (idx + 1) rest with
          | Except.error e => Except.error e
          | Except.ok items => Except.ok (entry :: items)

/-- `extract_table`: fold over the rows of `#resptable-1 tbody tr`; the first
failing row aborts the whole extraction with its exception. -/
def extract_table (today : Date) (doc : Doc) : Except ParseError (List BookEntry) :=
  extractRows today 0 doc.rows

/-! ## The walker (`VoebbScraper.run`) -/

structure Credentials where
  username : String
  password : String

inductive WalkError where
  | nav (e : NavError)
  | parse (e : ParseError)
deriving DecidableEq, Repr

/-- Outcome of a whole walk: result or first raised error, final session
state, and the HTTP requests issued, in order. -/
structure WalkOut where
  result : Except WalkError (List BookEntry)
  state : NavState
  requests : List Request

/-- The exact filter-selection value of the source (`"ZTEXT"`, seven spaces,
`"*SBK"`). -/
def landingFilterValue : String := "ZTEXT       *SBK"

/-- The CSS selector of the account-services link. -/
def kontoLinkSelector : String := "div#konto-services li a[href*=\"S*SZA\"]"

/-- `VoebbScraper.run`: the five calls of the source in order; the `except`
block re-raises every exception unchanged, so the first failing step's error
is the result. -/
def VoebbScraper.run (uj : String → String → String) (world : Request → Response)
    (today : Date) (creds : Credentials) (s0 : NavState) : WalkOut :=
  let r1 := load_page world s0
  match r1.result with
  | Except.error e =>
      { result := Except.error (WalkError.nav e), state := r1.state,
        requests := r1.request.toList }
  | Except.ok _ =>
      let r2 := find_and_submit_form uj world r1.state
        [("selected", landingFilterValue)] none
      match r2.result with
      | Except.error e =>
          { result := Except.error (WalkError.nav e), state := r2.state,
            requests := r1.request.toList ++ r2.request.toList }
      | Except.ok _ =>
          let r3 := find_and_submit_form uj world r2.state
            [("L#AUSW", creds.username), ("LPASSW", creds.password)] (some "LLOGIN")
          match r3.result with
          | Except.error e =>
              { result := Except.error (WalkError.nav e), state := r3.state,
                requests := r1.request.toList ++ r2.request.toList ++ r3.request.toList }
          | Except.ok _ =>
              let r4 := find_and_follow_link uj world r3.state kontoLinkSelector
              match r4.result with
              | Except.error e =>
                  { result := Except.error (WalkError.nav e), state := r4.state,
                    requests := r1.request.toList ++ r2.request.toList
                      ++ r3.request.toList ++ r4.request.toList }
              | Except.ok _ =>
                  match r4.state.last_response with
                  | none =>
                      { result := Except.error (WalkError.nav NavError.noDocument),
                        state := r4.state,
                        requests := r1.request.toList ++ r2.request.toList
                          ++ r3.request.toList ++ r4.request.toList }
                  | some doc =>
                      match extract_table today doc with
                      | Except.error e =>
                          { result := Except.error (WalkError.parse e), state := r4.state,
                            requests := r1.request.toList ++ r2.request.toList
                              ++ r3.request.toList ++ r4.request.toList }
                      | Except.ok items =>
                          { result := Except.ok items, state := r4.state,
                            requests := r1.request.toList ++ r2.request.toList
                              ++ r3.request.toList ++ r4.request.toList }

/-! ## Specification-side protocol executor

`execWalk` is written from the words of the specification (section 4.2): a
walk is a list of steps executed strictly in order, each step is attempted
exactly once, the first failing step aborts the walk and its error is
propagated unchanged.  `protocolSteps` is the fixed five-step protocol. -/

inductive Step where
  | loadStep
  | submitStep (values : List (String × String)) (button : Option String)
  | followStep (selector : String)
  | parseStep
deriving Repr

def execWalk (uj : String → String → String) (world : Request → Response)
    (today : Date) (s : NavState) (acc : List BookEntry) :
    List Step → WalkOut
  | [] => { result := Except.ok acc, state := s, requests := [] }
  | Step.loadStep :: rest =>
      let r := load_page world s
      match r.result with
      | Except.error e =>
          { result := Except.error (WalkError.nav e), state := r.state,
            requests := r.request.toList }
      | Except.ok _ =>
          let out := execWalk uj world today r.state acc rest
          { result := out.result, state := out.state,
            requests := r.request.toList ++ out.requests }
  | Step.submitStep values button :: rest =>
      let r := find_and_submit_form uj world s values button
      match r.result with
      | Except.error e =>
          { result := Except.error (WalkError.nav e), state := r.state,
            requests := r.request.toList }
      | Except.ok _ =>
          let out := execWalk uj world today r.state acc rest
          { result := out.result, state := out.state,
            requests := r.request.toList ++ out.requests }
  | Step.followStep selector :: rest =>
      let r := find_and_follow_link uj world s selector
      match r.result with
      | Except.error e =>
          { result := Except.error (WalkError.nav e), state := r.state,
            requests := r.request.toList }
      | Except.ok _ =>
          let out := execWalk uj world today r.state acc rest
          { result := out.result, state := out.state,
            requests := r.request.toList ++ out.requests }
  | Step.parseStep :: rest =>
      match s.last_response with
      | none =>
          { result := Except.error (WalkError.nav NavError.noDocument),
            state := s, requests := [] }
      | some doc =>
          match extract_table today doc with
          | Except.error e =>
              { result := Except.error (WalkError.parse e), state := s, requests := [] }
          | Except.ok items =>
              let out := execWalk uj world today s items rest
              { result := out.result, state := out.state, requests := out.requests }

/-- The five-step protocol, with the override values of the source. -/
def protocolSteps (creds : Credentials) : List Step :=
  [Step.loadStep,
   Step.submitStep [("selected", landingFilterValue)] none,
   Step.submitStep [("L#AUSW", creds.username), ("LPASSW", creds.password)]
     (some "LLOGIN"),
   Step.followStep kontoLinkSelector,
   Step.parseStep]

/-! ## Publishing computations (`process_books_data`) -/

/-- Lexicographic codepoint order, as Python compares `str` values. -/
def strLtb : List Char → List Char → Bool
  | [], [] => false
  | [], _ :: _ => true
  | _ :: _, [] => false
  | a :: as, b :: bs =>
      if a.toNat < b.toNat then true
      else if b.toNat < a.toNat then false
      else strLtb as bs

def pyStrLt (a b : String) : Bool := strLtb a.toList b.toList

def pyStrLe (a b : String) : Bool := pyStrLt a b || a == b

/-- One iteration of the closest-due-date loop: Python tests
`if not closest_due_date or book["due_date"] < closest_due_date`, so `None`
and the empty string both count as "no closest yet"; ISO date strings are
compared lexicographically. -/
def updateClosest (closest : Option String) (due : String) : Option String :=
  match closest with
  | none => some due
  | some c => if c = "" ∨ pyStrLt due c then some due else some c

def closestDueDate (books : List BookEntry) : Option String :=
  books.foldl (fun acc b => updateClosest acc b.due_date) none

/-- Count of books with `due_date <= due_soon_threshold` (string compare). -/
def dueSoonCount (threshold : String) (books : List BookEntry) : Nat :=
  books.foldl (fun n b => if pyStrLe b.due_date threshold then n + 1 else n) 0

/-- The three published state values of `process_books_data`: closest due
date, due-soon count, total count. -/
def process_books_data (books : List BookEntry) (threshold : String) :
    Option String × Nat × Nat :=
  (closestDueDate books, dueSoonCount threshold books, books.length)

/-! ## Schedule state (`VoebbScraperHomeAssistant`)

The Python object keeps a durable shelve with keys `last_scrape` and
`next_scrape`, plus the in-memory attributes `self.next_scrape` (read by
`should_scrape` and the wait computation) and `self.last_check`.
`self.state.get("last_scrape", 0)` is modelled by `Option.getD _ 0`. -/

structure ScheduleState where
  shelfLastScrape : Option Int
  shelfNextScrape : Option Int
  nextScrape : Int
  lastCheck : Int
deriving DecidableEq, Repr

/-- The two refresh command kinds decoded from a `{"refresh": ...}` line:
`"force"` versus any other truthy value. -/
inductive RefreshKind where
  | force
  | softRefresh
deriving DecidableEq, Repr

namespace VoebbScraperHomeAssistant

/-- Embedding of `VoebbScraperHomeAssistant.process_input` (the part reached
with a truthy `refresh` value).  The `force` branch writes only the shelved
`next_scrape`; the soft-refresh branch writes both the shelved value and the
in-memory `self.next_scrape`, guarded by
`self.state.get("last_scrape", 0) < now_ - 600`. -/
def process_input (s : ScheduleState) (kind : RefreshKind) (now : Int) :
    ScheduleState :=
  match kind with
  | RefreshKind.force => { s with shelfNextScrape := some now }
  | RefreshKind.softRefresh =>
      if s.shelfLastScrape.getD 0 < now - 600 then
        { s with nextScrape := now, shelfNextScrape := some now }
      else
        s

/-- Embedding of the `should_scrape` property: returns the decision together
with the successor state (the false branch records `self.last_check = now_`). -/
def should_scrape (s : ScheduleState) (now : Int) : Bool × ScheduleState :=
  if s.nextScrape ≤ now then
    (true, s)
  else if now < s.shelfLastScrape.getD 0 ∨ now < s.lastCheck then
    (true, s)
  else
    (false, { s with lastCheck := now })

/-- Embedding of `run_scrape`: it first records the attempt
(`state["last_scrape"] = now`, `self.next_scrape = state["next_scrape"] =
now + interval`, then `sync()`), and only then runs the walker.  The walk
outcome is passed in as the world's behaviour; whether it is `ok` or `error`
the schedule updates have already happened, and the outcome itself is
propagated unchanged to the caller. -/
def run_scrape (s : ScheduleState) (now interval : Int)
    (walk : Except WalkError (List BookEntry)) :
    ScheduleState × Except WalkError (List BookEntry) :=
  let s1 : ScheduleState := { s with shelfLastScrape := some now }
  let s2 : ScheduleState :=
    { s1 with nextScrape := now + interval, shelfNextScrape := some (now + interval) }
  (s2, walk)

end VoebbScraperHomeAssistant

/-! ## Concrete fixtures used by the closed theorems -/

/-- Failing input for the force-refresh claim: in-memory `next_scrape` one
thousand, empty shelf, `last_check` zero. -/
def c1State : ScheduleState :=
  { shelfLastScrape := none, shelfNextScrape := none, nextScrape := 1000, lastCheck := 0 }

/-- State for the soft-refresh counterexample: no recorded last scrape. -/
def c3State : ScheduleState :=
  { shelfLastScrape := none, shelfNextScrape := none, nextScrape := 5000, lastCheck := 0 }

/-- A trivially simple stand-in for `urljoin`. -/
def simpleUrljoin : String → String → String := fun base rel => base ++ rel

/-- The initial session state of `VoebbScraper.__init__`. -/
def navInit : NavState := { current_url := "https://voebb.de/", last_response := none }

def emptyDoc : Doc := { forms := [], selectOne := fun _ => none, rows := [] }

/-- A world whose every response carries status 201 (a 2xx status that is not
200). -/
def c5World : Request → Response :=
  fun _ => { status_code := 201, url := "http://resolved/", content := emptyDoc }

/-- The landing form of the walker counterexample: a text input named
`selected` plus a submit input without a name attribute. -/
def c6LandingForm : Form :=
  { action := some "http://portal/form",
    inputs :=
      [{ name := some "selected", type := some "text", value := some "" },
       { name := none, type := some "submit", value := some "Go" }] }

def c6Doc : Doc :=
  { forms := [c6LandingForm],
    selectOne := fun _ => some { href := some "page2" },
    rows := [] }

def c6World : Request → Response :=
  fun _ => { status_code := 200, url := "http://portal/page", content := c6Doc }

def c6Creds : Credentials := { username := "user", password := "pass" }

def c6Today : Date := { year := 2024, month := 1, day := 1 }

def fixtureCell (s : String) : Cell := { text := s, strippedStrings := [s] }

def fixtureRow (d lib t h : String) : List Cell :=
  [fixtureCell "1", fixtureCell d, fixtureCell lib, fixtureCell t, fixtureCell h]

/-- The three-row results-table fixture of the specification. -/
def c7Doc : Doc :=
  { forms := [],
    selectOne := fun _ => none,
    rows :=
      [fixtureRow "01.01.2030" "A" "Erstes Buch" "hint1",
       fixtureRow "15.06.2024" "B" "Zweites Buch" "hint2",
       fixtureRow "20.03.2025" "C" "Drittes Buch" "hint3"] }

def c7Today : Date := { year := 2024, month := 6, day := 1 }

/-- Specification-side helper for the payload dict: the default value of the
last input element without a name attribute, if any. -/
def lastNamelessValue : List Input → Option String
  | [] => none
  | i :: rest =>
      match lastNamelessValue rest with
      | some v => some v
      | none => if i.name = none then some (i.value.getD "") else none

/-- A document whose first form is fully well-formed (absolute action, no
inputs) and whose every selector match is a link with href `next`. -/
def c5OkDoc : Doc :=
  { forms := [{ action := some "http://form-target", inputs := [] }],
    selectOne := fun _ => some { href := some "next" },
    rows := [] }

def c5OkState : NavState :=
  { current_url := "http://start/", last_response := some c5OkDoc }

/-- A document whose first form has no action attribute. -/
def c10Doc : Doc :=
  { forms := [{ action := none,
                inputs := [{ name := some "a", type := none, value := some "x" }] }],
    selectOne := fun _ => none,
    rows := [] }

def c10State : NavState :=
  { current_url := "http://c10/", last_response := some c10Doc }

/-- Inputs with two nameless elements (the second of submit type) and one
named submit button. -/
def c9Inputs : List Input :=
  [{ name := none, type := some "text", value := some "first" },
   { name := none, type := some "submit", value := some "Go" },
   { name := some "LLOGIN", type := some "submit", value := some "login" }]

/-! ## Theorems -/

/-- C1: a `force` command at `now = 100` does write `next_scrape = now` into
the durable shelf, but it does not touch the in-memory `self.next_scrape`
that `should_scrape` consults (unlike the soft-refresh branch, which updates
both), so `should_scrape` at time `now` still returns `false` even though no
backward-clock condition holds.  This contradicts the claim that after a
force refresh `should_scrape` is true at any time `≥ now`. -/
theorem C1_force_refresh_ineffective :
    (VoebbScraperHomeAssistant.process_input c1State RefreshKind.force 100).shelfNextScrape
        = some 100
    ∧ (VoebbScraperHomeAssistant.process_input c1State RefreshKind.force 100).nextScrape
        = 1000
    ∧ (VoebbScraperHomeAssistant.should_scrape
        (VoebbScraperHomeAssistant.process_input c1State RefreshKind.force 100) 100).1
        = false := by
  decide

/-- C2: `run_scrape` records the attempt before the walker runs: for any
attempt time, any positive interval and any walk outcome (success or raised
error), the resulting schedule state has `last_scrape = now` and
`next_scrape = now + interval` in both the shelf and the in-memory field, and
the walk outcome is propagated unchanged. -/
theorem C2_attempt_recorded (s : ScheduleState) (now interval : Int)
    (walk : Except WalkError (List BookEntry)) (_hpos : 0 < interval) :
    (VoebbScraperHomeAssistant.run_scrape s now interval walk).1.shelfLastScrape = some now
    ∧ (VoebbScraperHomeAssistant.run_scrape s now interval walk).1.nextScrape = now + interval
    ∧ (VoebbScraperHomeAssistant.run_scrape s now interval walk).1.shelfNextScrape
        = some (now + interval)
    ∧ (VoebbScraperHomeAssistant.run_scrape s now interval walk).2 = walk := by
  refine ⟨rfl, rfl, rfl, rfl⟩

/-- Witness for C2 at a concrete state, time, interval and failing walk. -/
theorem C2_attempt_recorded_witness :
    (VoebbScraperHomeAssistant.run_scrape c1State 500 3600
        (Except.error (WalkError.nav (NavError.loadFailed 503)))).1.shelfLastScrape = some 500
    ∧ (VoebbScraperHomeAssistant.run_scrape c1State 500 3600
        (Except.error (WalkError.nav (NavError.loadFailed 503)))).1.nextScrape = 500 + 3600
    ∧ (VoebbScraperHomeAssistant.run_scrape c1State 500 3600
        (Except.error (WalkError.nav (NavError.loadFailed 503)))).1.shelfNextScrape
        = some (500 + 3600)
    ∧ (VoebbScraperHomeAssistant.run_scrape c1State 500 3600
        (Except.error (WalkError.nav (NavError.loadFailed 503)))).2
        = Except.error (WalkError.nav (NavError.loadFailed 503)) :=
  C2_attempt_recorded c1State 500 3600
    (Except.error (WalkError.nav (NavError.loadFailed 503))) (by decide)

/-- C3 counterexample: a soft refresh at `now = 100` with `last_scrape_at`
absent.  The claim demands `next_scrape_at = now`; the code compares the
default value `0` against `now - 600 = -500`, finds the guard false, and
leaves the state entirely unchanged. -/
theorem C3_soft_refresh_counterexample :
    c3State.shelfLastScrape = none
    ∧ VoebbScraperHomeAssistant.process_input c3State RefreshKind.softRefresh 100 = c3State
    ∧ (VoebbScraperHomeAssistant.process_input c3State RefreshKind.softRefresh 100).nextScrape
        ≠ 100 := by
  decide

/-- C3 amended: an absent `last_scrape` is read as the epoch value `0`, so a
soft refresh sets `next_scrape = now` (shelf and in-memory, leaving
`last_scrape` and `last_check` alone) exactly when either some last scrape is
recorded more than 600 seconds before `now`, or none is recorded and
`now > 600`; in every other case the state is entirely unchanged (a no-op,
not an error). -/
theorem C3_soft_refresh_amended (s : ScheduleState) (now : Int) :
    (((∃ t, s.shelfLastScrape = some t ∧ t < now - 600)
        ∨ (s.shelfLastScrape = none ∧ 600 < now)) →
      (VoebbScraperHomeAssistant.process_input s RefreshKind.softRefresh now).nextScrape = now
      ∧ (VoebbScraperHomeAssistant.process_input s RefreshKind.softRefresh now).shelfNextScrape
          = some now
      ∧ (VoebbScraperHomeAssistant.process_input s RefreshKind.softRefresh now).shelfLastScrape
          = s.shelfLastScrape
      ∧ (VoebbScraperHomeAssistant.process_input s RefreshKind.softRefresh now).lastCheck
          = s.lastCheck)
    ∧ (¬ ((∃ t, s.shelfLastScrape = some t ∧ t < now - 600)
        ∨ (s.shelfLastScrape = none ∧ 600 < now)) →
      VoebbScraperHomeAssistant.process_input s RefreshKind.softRefresh now = s) := by
  have hguard : s.shelfLastScrape.getD 0 < now - 600 ↔
      ((∃ t, s.shelfLastScrape = some t ∧ t < now - 600)
        ∨ (s.shelfLastScrape = none ∧ 600 < now)) := by
    cases h : s.shelfLastScrape with
    | none =>
        simp [Option.getD]
    | some t =>
        simp [Option.getD]
  constructor
  · intro h
    rw [← hguard] at h
    simp [VoebbScraperHomeAssistant.process_input, h]
  · intro h
    rw [← hguard] at h
    simp [VoebbScraperHomeAssistant.process_input, h]

/-- Witness for C3 amended: with `last_scrape = 0` recorded and `now = 10000`
the refresh fires and sets both next-scrape fields. -/
theorem C3_soft_refresh_amended_witness :
    (VoebbScraperHomeAssistant.process_input
        { shelfLastScrape := some 0, shelfNextScrape := none,
          nextScrape := 99, lastCheck := 7 } RefreshKind.softRefresh 10000).nextScrape = 10000
    ∧ (VoebbScraperHomeAssistant.process_input
        { shelfLastScrape := some 0, shelfNextScrape := none,
          nextScrape := 99, lastCheck := 7 } RefreshKind.softRefresh 10000).shelfNextScrape
        = some 10000
    ∧ (VoebbScraperHomeAssistant.process_input
        { shelfLastScrape := some 0, shelfNextScrape := none,
          nextScrape := 99, lastCheck := 7 } RefreshKind.softRefresh 10000).shelfLastScrape
        = some 0
    ∧ (VoebbScraperHomeAssistant.process_input
        { shelfLastScrape := some 0, shelfNextScrape := none,
          nextScrape := 99, lastCheck := 7 } RefreshKind.softRefresh 10000).lastCheck
        = 7 := by
  have h := (C3_soft_refresh_amended
    { shelfLastScrape := some 0, shelfNextScrape := none,
      nextScrape := 99, lastCheck := 7 } 10000).1 (Or.inl ⟨0, rfl, by decide⟩)
  exact ⟨h.1, h.2.1, h.2.2.1, h.2.2.2⟩

/-- Case analysis of `load_page`: the GET is always issued; status 200 means
both session fields are replaced from the response, anything else means the
error carries the status and the state is untouched. -/
lemma load_page_split (world : Request → Response) (s : NavState) :
    ((world (Request.get s.current_url)).status_code = 200 ∧
      load_page world s =
        { result := Except.ok (world (Request.get s.current_url)).content,
          state := { current_url := (world (Request.get s.current_url)).url,
                     last_response := some (world (Request.get s.current_url)).content },
          request := some (Request.get s.current_url) })
    ∨ ((world (Request.get s.current_url)).status_code ≠ 200 ∧
      load_page world s =
        { result := Except.error
            (NavError.loadFailed (world (Request.get s.current_url)).status_code),
          state := s,
          request := some (Request.get s.current_url) }) := by
  by_cases h : (world (Request.get s.current_url)).status_code = 200
  · exact Or.inl ⟨h, by simp [load_page, h]⟩
  · exact Or.inr ⟨h, by simp [load_page, h]⟩

/-- Case analysis of `find_and_submit_form`: either it raises (state
untouched) or the POST succeeded with status 200 and both session fields come
from that one response. -/
lemma find_and_submit_form_split (uj : String → String → String)
    (world : Request → Response) (s : NavState)
    (values : List (String × String)) (button : Option String) :
    ((find_and_submit_form uj world s values button).state = s
      ∧ ∃ e, (find_and_submit_form uj world s values button).result = Except.error e)
    ∨ (∃ req, (world req).status_code = 200 ∧
        find_and_submit_form uj world s values button =
          { result := Except.ok (world req).content,
            state := { current_url := (world req).url,
                       last_response := some (world req).content },
            request := some req }) := by
  cases hlr : s.last_response with
  | none =>
      refine Or.inl ⟨?_, NavError.noDocument, ?_⟩ <;>
        simp [find_and_submit_form, hlr]
  | some doc =>
      cases hforms : doc.forms.head? with
      | none =>
          refine Or.inl ⟨?_, NavError.formNotFound, ?_⟩ <;>
            simp [find_and_submit_form, hlr, hforms]
      | some form =>
          cases hact : form.action with
          | none =>
              refine Or.inl ⟨?_, NavError.actionAttributeError, ?_⟩ <;>
                simp [find_and_submit_form, hlr, hforms, hact]
          | some action =>
              by_cases hst : (world (Request.post
                  (if startsWithHttp action then action
                    else uj s.current_url action)
                  (buildPayload form.inputs values button))).status_code = 200
              · refine Or.inr ⟨Request.post
                    (if startsWithHttp action then action
                      else uj s.current_url action)
                    (buildPayload form.inputs values button), hst, ?_⟩
                simp [find_and_submit_form, hlr, hforms, hact, hst]
              · refine Or.inl ⟨?_, NavError.formSubmitFailed (world (Request.post
                    (if startsWithHttp action then action
                      else uj s.current_url action)
                    (buildPayload form.inputs values button))).status_code, ?_⟩ <;>
                  simp [find_and_submit_form, hlr, hforms, hact, hst]

/-- Case analysis of `find_and_follow_link`, analogous to the form case. -/
lemma find_and_follow_link_split (uj : String → String → String)
    (world : Request → Response) (s : NavState) (selector : String) :
    ((find_and_follow_link uj world s selector).state = s
      ∧ ∃ e, (find_and_follow_link uj world s selector).result = Except.error e)
    ∨ (∃ req, (world req).status_code = 200 ∧
        find_and_follow_link uj world s selector =
          { result := Except.ok (world req).content,
            state := { current_url := (world req).url,
                       last_response := some (world req).content },
            request := some req }) := by
  cases hlr : s.last_response with
  | none =>
      refine Or.inl ⟨?_, NavError.noDocument, ?_⟩ <;>
        simp [find_and_follow_link, hlr]
  | some doc =>
      cases hsel : doc.selectOne selector with
      | none =>
          refine Or.inl ⟨?_, NavError.linkNotFound selector, ?_⟩ <;>
            simp [find_and_follow_link, hlr, hsel]
      | some link =>
          cases hhref : link.href with
          | none =>
              refine Or.inl ⟨?_, NavError.linkMissingHref, ?_⟩ <;>
                simp [find_and_follow_link, hlr, hsel, hhref]
          | some href =>
              by_cases hempty : href = ""
              · refine Or.inl ⟨?_, NavError.linkMissingHref, ?_⟩ <;>
                  simp [find_and_follow_link, hlr, hsel, hhref, hempty]
              · by_cases hst : (world (Request.get (uj s.current_url href))).status_code = 200
                · refine Or.inr ⟨Request.get (uj s.current_url href), hst, ?_⟩
                  simp [find_and_follow_link, hlr, hsel, hhref, hempty, hst]
                · refine Or.inl ⟨?_, NavError.linkFollowFailed
                      (world (Request.get (uj s.current_url href))).status_code, ?_⟩ <;>
                    simp [find_and_follow_link, hlr, hsel, hhref, hempty, hst]

/-- C4: for each of the three navigation operations, over every session
state, document and HTTP outcome, a failing call leaves `current_url` and
`last_document` exactly as they were, and a succeeding call replaces both
from the single response of the one request it issued — never one without
the other. -/
theorem C4_atomic_session_updates (uj : String → String → String)
    (world : Request → Response) (s : NavState)
    (values : List (String × String)) (button : Option String) (selector : String) :
    (∀ e, (load_page world s).result = Except.error e → (load_page world s).state = s)
    ∧ (∀ d, (load_page world s).result = Except.ok d →
        ∃ req, (load_page world s).request = some req
          ∧ (load_page world s).state =
              { current_url := (world req).url, last_response := some (world req).content }
          ∧ d = (world req).content)
    ∧ (∀ e, (find_and_submit_form uj world s values button).result = Except.error e →
        (find_and_submit_form uj world s values button).state = s)
    ∧ (∀ d, (find_and_submit_form uj world s values button).result = Except.ok d →
        ∃ req, (find_and_submit_form uj world s values button).request = some req
          ∧ (find_and_submit_form uj world s values button).state =
              { current_url := (world req).url, last_response := some (world req).content }
          ∧ d = (world req).content)
    ∧ (∀ e, (find_and_follow_link uj world s selector).result = Except.error e →
        (find_and_follow_link uj world s selector).state = s)
    ∧ (∀ d, (find_and_follow_link uj world s selector).result = Except.ok d →
        ∃ req, (find_and_follow_link uj world s selector).request = some req
          ∧ (find_and_follow_link uj world s selector).state =
              { current_url := (world req).url, last_response := some (world req).content }
          ∧ d = (world req).content) := by
  refine ⟨?_, ?_, ?_, ?_, ?_, ?_⟩
  · intro e he
    rcases load_page_split world s with ⟨_, heq⟩ | ⟨_, heq⟩
    · rw [heq] at he; simp at he
    · rw [heq]
  · intro d hd
    rcases load_page_split world s with ⟨_, heq⟩ | ⟨_, heq⟩
    · rw [heq] at hd ⊢
      refine ⟨Request.get s.current_url, rfl, rfl, ?_⟩
      simpa using hd.symm
    · rw [heq] at hd; simp at hd
  · intro e he
    rcases find_and_submit_form_split uj world s values button with
      ⟨hstate, _⟩ | ⟨req, _, heq⟩
    · exact hstate
    · rw [heq] at he; simp at he
  · intro d hd
    rcases find_and_submit_form_split uj world s values button with
      ⟨_, e, herr⟩ | ⟨req, _, heq⟩
    · rw [herr] at hd; simp at hd
    · rw [heq] at hd ⊢
      refine ⟨req, rfl, rfl, ?_⟩
      simpa using hd.symm
  · intro e he
    rcases find_and_follow_link_split uj world s selector with
      ⟨hstate, _⟩ | ⟨req, _, heq⟩
    · exact hstate
    · rw [heq] at he; simp at he
  · intro d hd
    rcases find_and_follow_link_split uj world s selector with
      ⟨_, e, herr⟩ | ⟨req, _, heq⟩
    · rw [herr] at hd; simp at hd
    · rw [heq] at hd ⊢
      refine ⟨req, rfl, rfl, ?_⟩
      simpa using hd.symm

/-- Witness for C4: against a world answering status 201, all three
operations fail and each leaves its session state untouched. -/
theorem C4_atomic_session_updates_witness :
    (load_page c5World navInit).state = navInit
    ∧ (find_and_submit_form simpleUrljoin c5World c5OkState [] none).state = c5OkState
    ∧ (find_and_follow_link simpleUrljoin c5World c5OkState "a").state = c5OkState := by
  refine ⟨?_, ?_, ?_⟩
  · exact (C4_atomic_session_updates simpleUrljoin c5World navInit [] none "a").1
      (NavError.loadFailed 201) rfl
  · exact (C4_atomic_session_updates simpleUrljoin c5World c5OkState [] none "a").2.2.1
      (NavError.formSubmitFailed 201) rfl
  · exact (C4_atomic_session_updates simpleUrljoin c5World c5OkState [] none "a").2.2.2.2.1
      (NavError.linkFollowFailed 201) rfl

/-- C5 counterexample: HTTP status 201 is a 2xx status, yet `load_page`
treats it as failure (the source tests `status_code == 200`, not the 2xx
range), raising instead of storing the response. -/
theorem C5_counterexample_status_201 :
    (load_page c5World navInit).result = Except.error (NavError.loadFailed 201)
    ∧ (load_page c5World navInit).state = navInit
    ∧ (200 ≤ 201 ∧ 201 < 300) := by
  refine ⟨rfl, rfl, by decide⟩

/-- C5 amended: each navigation operation succeeds exactly when the final
HTTP status equals 200 (other 2xx statuses fail like any non-200 status):
on 200 it stores the resolved URL and body, otherwise it raises an error
carrying the stage and the status, leaving the session state unchanged. -/
theorem C5_status_gate_amended (uj : String → String → String)
    (world : Request → Response) (s : NavState)
    (values : List (String × String)) (button : Option String) (selector : String)
    (doc : Doc) (form : Form) (action : String) (link : Elem) (href : String)
    (reqS reqF : Request)
    (h1 : s.last_response = some doc) (h2 : doc.forms.head? = some form)
    (h3 : form.action = some action) (h4 : doc.selectOne selector = some link)
    (h5 : link.href = some href) (h6 : href ≠ "")
    (hreqS : reqS = Request.post
      (if startsWithHttp action then action else uj s.current_url action)
      (buildPayload form.inputs values button))
    (hreqF : reqF = Request.get (uj s.current_url href)) :
    ((world (Request.get s.current_url)).status_code = 200 →
      load_page world s =
        { result := Except.ok (world (Request.get s.current_url)).content,
          state := { current_url := (world (Request.get s.current_url)).url,
                     last_response := some (world (Request.get s.current_url)).content },
          request := some (Request.get s.current_url) })
    ∧ ((world (Request.get s.current_url)).status_code ≠ 200 →
      load_page world s =
        { result := Except.error
            (NavError.loadFailed (world (Request.get s.current_url)).status_code),
          state := s,
          request := some (Request.get s.current_url) })
    ∧ ((world reqS).status_code = 200 →
      find_and_submit_form uj world s values button =
        { result := Except.ok (world reqS).content,
          state := { current_url := (world reqS).url,
                     last_response := some (world reqS).content },
          request := some reqS })
    ∧ ((world reqS).status_code ≠ 200 →
      find_and_submit_form uj world s values button =
        { result := Except.error (NavError.formSubmitFailed (world reqS).status_code),
          state := s,
          request := some reqS })
    ∧ ((world reqF).status_code = 200 →
      find_and_follow_link uj world s selector =
        { result := Except.ok (world reqF).content,
          state := { current_url := (world reqF).url,
                     last_response := some (world reqF).content },
          request := some reqF })
    ∧ ((world reqF).status_code ≠ 200 →
      find_and_follow_link uj world s selector =
        { result := Except.error (NavError.linkFollowFailed (world reqF).status_code),
          state := s,
          request := some reqF }) := by
  subst hreqS
  subst hreqF
  refine ⟨?_, ?_, ?_, ?_, ?_, ?_⟩ <;> intro hst <;>
    simp [load_page, find_and_submit_form, find_and_follow_link,
      h1, h2, h3, h4, h5, h6, hst]

/-- Witness for C5 amended: a status-200 world makes the submit operation
store the resolved URL and body and post to the form's absolute action. -/
theorem C5_status_gate_amended_witness :
    find_and_submit_form simpleUrljoin c6World c5OkState [] none =
      { result := Except.ok c6Doc,
        state := { current_url := "http://portal/page", last_response := some c6Doc },
        request := some (Request.post "http://form-target" []) } := by
  exact (C5_status_gate_amended simpleUrljoin c6World c5OkState [] none "a"
    c5OkDoc { action := some "http://form-target", inputs := [] } "http://form-target"
    { href := some "next" } "next"
    (Request.post "http://form-target" []) (Request.get "http://start/next")
    rfl rfl rfl rfl rfl (by decide) (by decide) (by decide)).2.2.1 rfl

/-- C10: a present first form without an action attribute makes
`find_and_submit_form` raise the `AttributeError` of
`None.startswith("http")` before any request is posted; the error is a
different one from the missing-form error, and the session state is left
unchanged. -/
theorem C10_missing_action_aborts (uj : String → String → String)
    (world : Request → Response) (s : NavState)
    (values : List (String × String)) (button : Option String)
    (doc : Doc) (form : Form)
    (h1 : s.last_response = some doc)
    (h2 : doc.forms.head? = some form)
    (h3 : form.action = none) :
    find_and_submit_form uj world s values button =
      { result := Except.error NavError.actionAttributeError, state := s, request := none }
    ∧ NavError.actionAttributeError ≠ NavError.formNotFound := by
  constructor
  · simp [find_and_submit_form, h1, h2, h3]
  · decide

/-- Witness for C10 on a concrete action-less form. -/
theorem C10_missing_action_aborts_witness :
    find_and_submit_form simpleUrljoin c6World c10State [("a", "y")] none =
      { result := Except.error NavError.actionAttributeError,
        state := c10State, request := none }
    ∧ NavError.actionAttributeError ≠ NavError.formNotFound :=
  C10_missing_action_aborts simpleUrljoin c6World c10State [("a", "y")] none
    c10Doc { action := none,
             inputs := [{ name := some "a", type := none, value := some "x" }] }
    rfl rfl rfl

/-- C7 counterexample: on the three-row fixture the third due-date cell
`20.03.2025` (day 20, month 03) parses to ISO `2025-03-20`, not the
`2025-03-25` stated by the claim. -/
theorem C7_counterexample_third_date :
    ((extract_table c7Today c7Doc).toOption.getD []).map BookEntry.due_date
      = ["2030-01-01", "2024-06-15", "2025-03-20"]
    ∧ ("2025-03-20" : String) ≠ "2025-03-25" := by
  exact ⟨rfl, by decide⟩

/-- C7 amended: on the three-row fixture (`01.01.2030`, `15.06.2024`,
`20.03.2025`), `extract_table` returns exactly three records in row order
with ISO due dates `2030-01-01`, `2024-06-15`, `2025-03-20`, and the
closest-due-date computation over them yields `2024-06-15`. -/
theorem C7_fixture_parse_amended :
    extract_table c7Today c7Doc = Except.ok
      [{ due_date := "2030-01-01", library := "A", title := "Erstes Buch",
         hint := "hint1", days_left := 2040 },
       { due_date := "2024-06-15", library := "B", title := "Zweites Buch",
         hint := "hint2", days_left := 14 },
       { due_date := "2025-03-20", library := "C", title := "Drittes Buch",
         hint := "hint3", days_left := 292 }]
    ∧ closestDueDate ((extract_table c7Today c7Doc).toOption.getD [])
        = some "2024-06-15" := by
  exact ⟨rfl, rfl⟩

/-- C8 counterexample: `extract_table` stores a `days_left` field inside
every record, computed at parse time from the parse date — parsing the same
fixture on two consecutive days yields records identical in `due_date` but
differing in the stored `days_left`.  This refutes the claim that `days_left`
is never stored in a record. -/
theorem C8_days_left_stored_counterexample :
    ((extract_table { year := 2024, month := 1, day := 1 } c7Doc).toOption.getD []).map
        BookEntry.days_left = [2192, 166, 444]
    ∧ ((extract_table { year := 2024, month := 1, day := 2 } c7Doc).toOption.getD []).map
        BookEntry.days_left = [2191, 165, 443]
    ∧ ((extract_table { year := 2024, month := 1, day := 1 } c7Doc).toOption.getD []).map
        BookEntry.due_date
      = ((extract_table { year := 2024, month := 1, day := 2 } c7Doc).toOption.getD []).map
        BookEntry.due_date := by
  exact ⟨rfl, rfl, rfl⟩

/-- The closest-due-date fold reads only `due_date` from a record. -/
lemma closest_fold_ignores_days_left (f : BookEntry → Int) :
    ∀ (books : List BookEntry) (acc : Option String),
      List.foldl (fun a b => updateClosest a b.due_date) acc
          (books.map fun b => { b with days_left := f b })
        = List.foldl (fun a b => updateClosest a b.due_date) acc books := by
  intro books
  induction books with
  | nil => intro acc; rfl
  | cons b rest ih =>
      intro acc
      simp only [List.map_cons, List.foldl_cons]
      exact ih (updateClosest acc b.due_date)

/-- C8 amended: each record stores, besides `due_date`, `library`, `title`
and `hint`, a `days_left` value fixed at parse time as the parsed due date
minus the parse date; the published closest-due-date computation never reads
this stored field (it is invariant under arbitrary rewrites of `days_left`),
deriving from `due_date` instead. -/
theorem C8_days_left_amended (today : Date) (idx : Nat) (tds : List Cell)
    (e : BookEntry) (h : parseRow today idx tds = Except.ok e) :
    (∃ d, strptime_dmY ((tds[1]?).getD ({ text := "", strippedStrings := [] } : Cell)).text = some d
      ∧ e.due_date = Date.isoformat d
      ∧ e.days_left = (toOrdinal d : Int) - (toOrdinal today : Int))
    ∧ (∀ (f : BookEntry → Int) (books : List BookEntry),
        closestDueDate (books.map fun b => { b with days_left := f b })
          = closestDueDate books) := by
  constructor
  · cases h1 : tds[1]? with
    | none => simp [parseRow, h1] at h
    | some c1 =>
        cases h2 : strptime_dmY c1.text with
        | none => simp [parseRow, h1, h2] at h
        | some d =>
            cases h3 : tds[2]? with
            | none => simp [parseRow, h1, h2, h3] at h
            | some c2 =>
                cases h4 : tds[3]? with
                | none => simp [parseRow, h1, h2, h3, h4] at h
                | some c3 =>
                    cases h5 : tds[4]? with
                    | none => simp [parseRow, h1, h2, h3, h4, h5] at h
                    | some c4 =>
                        have h6 :
                            ({ due_date := Date.isoformat d,
                               library := c2.text,
                               title := String.intercalate " " c3.strippedStrings,
                               hint := c4.text,
                               days_left :=
                                 (toOrdinal d : Int) - (toOrdinal today : Int) } :
                              BookEntry) = e := by
                          simpa [parseRow, h1, h2, h3, h4, h5] using h
                        refine ⟨d, ?_, ?_, ?_⟩
                        · simp [h1]
                          exact h2
                        · rw [← h6]
                        · rw [← h6]
  · intro f books
    unfold closestDueDate
    exact closest_fold_ignores_days_left f books none

/-- Witness for C8 amended at the second fixture row, parsed on 2024-06-01. -/
theorem C8_days_left_amended_witness :
    ∃ d, strptime_dmY (((fixtureRow "15.06.2024" "B" "Zweites Buch" "hint2")[1]?).getD
          ({ text := "", strippedStrings := [] } : Cell)).text = some d
      ∧ ({ due_date := "2024-06-15", library := "B", title := "Zweites Buch",
           hint := "hint2", days_left := 14 } : BookEntry).due_date = Date.isoformat d
      ∧ ({ due_date := "2024-06-15", library := "B", title := "Zweites Buch",
           hint := "hint2", days_left := 14 } : BookEntry).days_left
          = (toOrdinal d : Int) - (toOrdinal c7Today : Int) :=
  (C8_days_left_amended c7Today 0 (fixtureRow "15.06.2024" "B" "Zweites Buch" "hint2")
    { due_date := "2024-06-15", library := "B", title := "Zweites Buch",
      hint := "hint2", days_left := 14 } rfl).1

/-- C6 counterexample: in a run against a well-formed landing page, the
second HTTP request (the landing-form POST) carries the filter override value
of the source, which contains seven spaces — not the single-space
`"ZTEXT *SBK"` of the claim — and its payload keeps the form's nameless
submit input instead of dropping every submit input. -/
theorem C6_counterexample_filter_value :
    (VoebbScraper.run simpleUrljoin c6World c6Today c6Creds navInit).requests[1]?
      = some (Request.post "http://portal/form"
          [(some "selected", landingFilterValue), (none, "Go")])
    ∧ landingFilterValue ≠ "ZTEXT *SBK" := by
  exact ⟨rfl, by decide⟩

lemma dictFind_dictInsert_self (d : List (Option String × String))
    (k : Option String) (v : String) :
    dictFind (dictInsert d k v) k = some v := by
  induction d with
  | nil => simp [dictInsert, dictFind]
  | cons p rest ih =>
      by_cases h : p.1 = k
      · simp [dictInsert, dictFind, h]
      · simp [dictInsert, dictFind, h, ih]

lemma dictFind_dictInsert_other (d : List (Option String × String))
    (k k' : Option String) (v : String) (hne : k' ≠ k) :
    dictFind (dictInsert d k' v) k = dictFind d k := by
  induction d with
  | nil => simp [dictInsert, dictFind, hne]
  | cons p rest ih =>
      by_cases h : p.1 = k'
      · simp [dictInsert, dictFind, h, hne]
      · simp [dictInsert, dictFind, h, ih]

/-- With no submit-button name, the payload's value under the absent-name key
is the default value of the last nameless input (nameless inputs, submit-typed
or not, are never skipped; named inputs never touch the `None` key). -/
lemma buildPayload_fold_none (values : List (String × String)) :
    ∀ (inputs : List Input) (d : List (Option String × String)),
      dictFind (List.foldl (payloadStep values none) d inputs) none =
        match lastNamelessValue inputs with
        | some v => some v
        | none => dictFind d none := by
  intro inputs
  induction inputs with
  | nil => intro d; simp [lastNamelessValue]
  | cons i rest ih =>
      intro d
      simp only [List.foldl_cons, lastNamelessValue]
      rw [ih]
      cases hlast : lastNamelessValue rest with
      | some v => simp
      | none =>
          cases hname : i.name with
          | none =>
              simp [payloadStep, hname, dictFind_dictInsert_self]
          | some n =>
              by_cases hsub : i.type = some "submit"
              · simp [payloadStep, hname, hsub]
              · cases hv : valuesLookup values n with
                | some ov =>
                    simp [payloadStep, hname, hsub, hv, dictFind_dictInsert_other]
                | none =>
                    simp [payloadStep, hname, hsub, hv, dictFind_dictInsert_other]

/-- With no submit-button name, a name all of whose inputs are submit-typed
never reaches the payload: every such input is skipped. -/
lemma buildPayload_fold_named (values : List (String × String)) (n : String) :
    ∀ (inputs : List Input) (d : List (Option String × String)),
      (∀ i ∈ inputs, i.name = some n → i.type = some "submit") →
      dictFind (List.foldl (payloadStep values none) d inputs) (some n)
        = dictFind d (some n) := by
  intro inputs
  induction inputs with
  | nil => intro d _; rfl
  | cons i rest ih =>
      intro d hall
      simp only [List.foldl_cons]
      rw [ih _ (fun j hj hn => hall j (List.mem_cons_of_mem _ hj) hn)]
      cases hname : i.name with
      | none =>
          simp [payloadStep, hname, dictFind_dictInsert_other]
      | some m =>
          by_cases hsub : i.type = some "submit"
          · simp [payloadStep, hname, hsub]
          · have hmn : m ≠ n := by
              intro hEq
              exact hsub (hall i (List.mem_cons_self i rest) (by rw [hname, hEq]))
            cases hv : valuesLookup values m with
            | some ov =>
                simp [payloadStep, hname, hsub, hv, dictFind_dictInsert_other, hmn]
            | none =>
                simp [payloadStep, hname, hsub, hv, dictFind_dictInsert_other, hmn]

/-- C9: when no submit-button name is given, the submitted payload carries
the absent-name key exactly when the form has an input without a name
attribute, its value being the default value of the *last* such input (later
nameless inputs overwrite earlier ones, submit-typed ones included), while a
name carried only by submit-typed inputs is dropped entirely; and the POST
issued by `find_and_submit_form` does post exactly `buildPayload` of the
form's inputs. -/
theorem C9_nameless_inputs_posted (inputs : List Input)
    (values : List (String × String)) (n : String)
    (hsub : ∀ i ∈ inputs, i.name = some n → i.type = some "submit") :
    dictFind (buildPayload inputs values none) none = lastNamelessValue inputs
    ∧ dictFind (buildPayload inputs values none) (some n) = none
    ∧ (∀ (uj : String → String → String) (world : Request → Response)
        (s : NavState) (doc : Doc) (form : Form) (action : String),
        s.last_response = some doc → doc.forms.head? = some form →
        form.action = some action →
        (find_and_submit_form uj world s values none).request
          = some (Request.post
              (if startsWithHttp action then action else uj s.current_url action)
              (buildPayload form.inputs values none))) := by
  refine ⟨?_, ?_, ?_⟩
  · have h := buildPayload_fold_none values inputs []
    cases hlast : lastNamelessValue inputs with
    | some v => rw [hlast] at h; simpa [buildPayload] using h
    | none => rw [hlast] at h; simpa [buildPayload, dictFind] using h
  · have h := buildPayload_fold_named values n inputs [] hsub
    simpa [buildPayload, dictFind] using h
  · intro uj world s doc form action h1 h2 h3
    by_cases hst : (world (Request.post
        (if startsWithHttp action then action else uj s.current_url action)
        (buildPayload form.inputs values none))).status_code = 200 <;>
      simp [find_and_submit_form, h1, h2, h3, hst]

/-- Witness for C9: two nameless inputs (the second submit-typed) and one
named submit input; the absent-name key holds the last nameless default and
the named submit input is dropped. -/
theorem C9_nameless_inputs_posted_witness :
    dictFind (buildPayload c9Inputs [] none) none = some "Go"
    ∧ dictFind (buildPayload c9Inputs [] none) (some "LLOGIN") = none := by
  have h := C9_nameless_inputs_posted c9Inputs [] "LLOGIN" (by decide)
  exact ⟨h.1.trans (by rfl), h.2.1⟩

/-- C6 amended: a walk is exactly the five-step protocol — load the entry
URL; submit the landing form with the single override
`selected = "ZTEXT       *SBK"` (the seven-space literal of the source) and
no submit-button name (so every *named* submit input is dropped, a nameless
one being kept per C9); submit the reloaded form with the username/password
overrides and submit-button name `LLOGIN`; follow the account-services link;
parse the table — executed strictly in order by the specification-side
executor `execWalk`, which attempts each step once (no retry) and aborts on
the first failure, propagating that error unchanged. -/
theorem C6_protocol_refined (uj : String → String → String)
    (world : Request → Response) (today : Date) (creds : Credentials)
    (s0 : NavState) :
    VoebbScraper.run uj world today creds s0
      = execWalk uj world today s0 [] (protocolSteps creds) := by
  simp only [VoebbScraper.run, protocolSteps, execWalk]
  generalize load_page world s0 = r1
  cases h1 : r1.result with
  | error e => simp
  | ok d1 =>
      simp only [execWalk]
      generalize find_and_submit_form uj world r1.state
        [("selected", landingFilterValue)] none = r2
      cases h2 : r2.result with
      | error e => simp
      | ok d2 =>
          simp only [execWalk]
          generalize find_and_submit_form uj world r2.state
            [("L#AUSW", creds.username), ("LPASSW", creds.password)]
            (some "LLOGIN") = r3
          cases h3 : r3.result with
          | error e => simp
          | ok d3 =>
              simp only [execWalk]
              generalize find_and_follow_link uj world r3.state kontoLinkSelector = r4
              cases h4 : r4.result with
              | error e => simp
              | ok d4 =>
                  simp only [execWalk]
                  cases h5 : r4.state.last_response with
                  | none => simp
                  | some doc =>
                      cases h6 : extract_table today doc with
                      | error e => simp [h6]
                      | ok items => simp [execWalk, h6]

end Bookaware
